import Mathlib

/-!
Shallow embedding of the SmartCards backend authentication layer
(src/main.py and src/app/core/security.py, src/app/routers/auth.py,
src/app/routers/groups.py, src/app/schemas/user.py).

Modelling conventions:
- JWTs are modelled as an optional payload (none = a string that is not a
  well-formed JWT) together with the key the token was signed with; jose's
  `jwt.decode` checks the signature by comparing that key with the
  verifier's key. jose's default options are `verify_exp = True` but
  `require_exp = False`: a missing exp claim is accepted, a present exp
  claim is rejected exactly when `exp < now`.
- bcrypt digests are modelled as the string `"$2b$" ++ salt ++ "$" ++ p`
  where `p` is the plaintext the digest was derived from (an idealised
  one-way hash: verification recomputes the digest with the salt embedded
  in the stored string and compares, so it succeeds exactly on the original
  plaintext). passlib's `CryptContext.verify` raises `UnknownHashError`
  when the stored string is not recognisable as a bcrypt digest; this is
  modelled with an `Except PasslibError` result.
- The random salt, the generated uuids (`generate_uuid`) and the clock
  (`datetime.now(timezone.utc)`, in seconds) are passed as explicit
  parameters, making every operation a pure function.
- The async database session is modelled by explicit state passing: a
  handler takes the store and returns the (response, new store) pair.
  `db.add` followed by `commit` appends the new row.
-/

namespace SmartCards

/-- `SECRET_KEY = os.getenv("SECRET_KEY", "super_secret_key_123")` in
src/main.py, with the environment variable unset. -/
def SECRET_KEY : String := "super_secret_key_123"

/-- `ACCESS_TOKEN_EXPIRE_MINUTES = 60` in src/main.py. -/
def ACCESS_TOKEN_EXPIRE_MINUTES : Int := 60

/-- A decoded JWT claim set: the `sub` claim (absent or null ↦ `none`) and
the `exp` claim (absent ↦ `none`), exp in seconds since the epoch. -/
structure Payload where
  sub : Option String
  exp : Option Int
deriving DecidableEq, Repr

/-- A serialized JWT: `payload = none` models a malformed token string;
`signedWith` is the key the token was signed with. -/
structure Jwt where
  payload : Option Payload
  signedWith : String
deriving DecidableEq, Repr

/-- jose error classes relevant here; all are subclasses of `JWTError` and
are caught by the `except JWTError` in `get_current_user`. -/
inductive JWTError where
  | malformed
  | badSignature
  | expiredSignature
deriving DecidableEq, Repr

/-- `jose.jwt.decode(token, key, algorithms=[ALGORITHM])` with jose's
default options: signature first, then the exp claim, which is verified
when present (`exp < now` ↦ `ExpiredSignatureError`) but not required. -/
def joseDecode (t : Jwt) (key : String) (now : Int) : Except JWTError Payload :=
  match t.payload with
  | none => .error .malformed
  | some p =>
    if t.signedWith ≠ key then .error .badSignature
    else
      match p.exp with
      | some e => if e < now then .error .expiredSignature else .ok p
      | none => .ok p

/-- passlib error on a digest that cannot be identified as any configured
scheme (`passlib.exc.UnknownHashError`, a `ValueError`). -/
inductive PasslibError where
  | unknownHash
deriving DecidableEq, Repr

/-- A bcrypt digest with the given salt: `"$2b$" ++ salt ++ "$" ++ p`.
`hash_password` in src/main.py draws the salt randomly inside
`pwd_context.hash`; here it is an explicit parameter (bcrypt salts never
contain the separator character `$`). -/
def bcryptDigest (password : String) (salt : String) : String :=
  "$2b$" ++ salt ++ "$" ++ password

/-- `hash_password(password)` from src/main.py, the salt made explicit. -/
def hash_password (password : String) (salt : String) : String :=
  bcryptDigest password salt

/-- Split a character list at the first `'$'`: `some (before, after)`,
or `none` when no `'$'` occurs. Used to extract the salt field of a
stored digest, as bcrypt does when re-hashing for verification. -/
def splitAtDollar : List Char → Option (List Char × List Char)
  | [] => none
  | c :: rest =>
    if c = '$' then some ([], rest)
    else (splitAtDollar rest).map (fun pr => (c :: pr.1, pr.2))

/-- passlib's identify step for the configured `bcrypt` scheme: recognise
`"$2b$" ++ salt ++ "$" ++ rest` and return `(salt, rest)`; anything else is
an unrecognised hash. -/
def identifyBcrypt (hashed : String) : Option (String × String) :=
  match hashed.toList with
  | a :: b :: c :: d :: rest =>
    if a = '$' ∧ b = '2' ∧ c = 'b' ∧ d = '$' then
      (splitAtDollar rest).map (fun pr => (String.mk pr.1, String.mk pr.2))
    else none
  | _ => none

/-- `verify_password(plain, hashed)` from src/main.py:
`pwd_context.verify(plain, hashed)`. passlib identifies the scheme of
`hashed`; if identification fails it raises `UnknownHashError`, otherwise
bcrypt re-hashes `plain` with the embedded salt and compares digests. -/
def verify_password (plain : String) (hashed : String) : Except PasslibError Bool :=
  match identifyBcrypt hashed with
  | some (saltStr, _) => .ok (bcryptDigest plain saltStr == hashed)
  | none => .error .unknownHash

/-- The `users` table row (src/main.py `class User`); `password` stores the
bcrypt digest string, never the plaintext. -/
structure User where
  id : String
  email : String
  password : String
  full_name : Option String
  created_at : Int
deriving DecidableEq, Repr

/-- `get_user_by_email_async(email, db)`:
`select(User).where(User.email == email)` then `.scalars().first()`. -/
def get_user_by_email (email : String) (db : List User) : Option User :=
  db.find? (fun u => u.email == email)

/-- `fastapi.HTTPException(status_code, detail, headers)`. -/
structure HTTPException where
  status_code : Nat
  detail : String
  headers : List (String × String)
deriving DecidableEq, Repr

/-- The single `credentials_exception` built in `get_current_user`. -/
def credentials_exception : HTTPException :=
  ⟨401, "Invalid token", [("WWW-Authenticate", "Bearer")]⟩

/-- `get_current_user(token, db)` from src/main.py. The second component
records whether the Credential Store was queried (`get_user_by_email`
reached): `false` on every path that raises before the lookup. -/
def get_current_user (token : Jwt) (db : List User) (now : Int) :
    Except HTTPException User × Bool :=
  match joseDecode token SECRET_KEY now with
  | .error _ => (.error credentials_exception, false)
  | .ok payload =>
    match payload.sub with
    | none => (.error credentials_exception, false)
    | some email =>
      match get_user_by_email email db with
      | none => (.error credentials_exception, true)
      | some user => (.ok user, true)

/-- The `data` dict passed to `create_access_token`; at every call site it
is `{"sub": email}`. -/
structure TokenData where
  sub : Option String
deriving DecidableEq, Repr

/-- `create_access_token(data, expires_delta)` from src/main.py:
`expire = now + (expires_delta or timedelta(minutes=15))`, then the token
is signed with `SECRET_KEY`. Durations are in seconds. -/
def create_access_token (data : TokenData) (expires_delta : Option Int) (now : Int) : Jwt :=
  ⟨some ⟨data.sub, some (now + expires_delta.getD (15 * 60))⟩, SECRET_KEY⟩

/-- Request body of `POST /auth/register` (`class UserCreate`). -/
structure UserCreate where
  email : String
  password : String
  full_name : Option String
deriving DecidableEq, Repr

/-- `class UserResponse(BaseModel)` in src/app/schemas/user.py and
src/main.py: the response model of `POST /auth/register` — only id,
email and full_name. -/
structure UserResponse where
  id : String
  email : String
  full_name : Option String
deriving DecidableEq, Repr

/-- The serialized JSON body of a `UserResponse`: exactly the three
declared fields, `full_name` possibly null. -/
def UserResponse.render (r : UserResponse) : List (String × Option String) :=
  [("id", some r.id), ("email", some r.email), ("full_name", r.full_name)]

/-- The `HTTPException(status_code=400, detail="User already exists")`
raised by `register_user`. -/
def userExists : HTTPException := ⟨400, "User already exists", []⟩

/-- `register_user(user, db)` from src/main.py: look up by email; conflict
if present (store untouched — no add/commit on that path); otherwise hash
the password, build the row with a fresh uuid, add + commit, and return
the id/email/full_name projection. `freshId`, `salt` and `now` make the
uuid, the bcrypt salt and the clock explicit. -/
def register_user (user : UserCreate) (db : List User)
    (freshId : String) (salt : String) (now : Int) :
    Except HTTPException UserResponse × List User :=
  match get_user_by_email user.email db with
  | some _ => (.error userExists, db)
  | none =>
    let new_user : User :=
      ⟨freshId, user.email, hash_password user.password salt, user.full_name, now⟩
    (.ok ⟨new_user.id, new_user.email, new_user.full_name⟩, db ++ [new_user])

/-- Response model of `POST /auth/login` (`class Token`). -/
structure TokenOut where
  access_token : Jwt
  token_type : String
deriving DecidableEq, Repr

/-- A request outcome: an `HTTPException` returned to the client, or an
uncaught library exception propagating out of the handler. -/
inductive AppError where
  | http (e : HTTPException)
  | passlibFailure (e : PasslibError)
deriving DecidableEq, Repr

/-- The `HTTPException(status_code=401, detail="Invalid credentials")`
raised by `login_user` — note: constructed with no headers argument. -/
def invalidCredentials : HTTPException := ⟨401, "Invalid credentials", []⟩

/-- `login_user(form_data, db)` from src/main.py:
`if not user or not verify_password(...)` raises 401 "Invalid credentials"
(short-circuit: no digest check when the user is absent); on success issues
a token for `{"sub": user.email}` with
`timedelta(minutes=ACCESS_TOKEN_EXPIRE_MINUTES)`. A passlib exception from
`verify_password` is not caught by the handler. -/
def login_user (username : String) (password : String) (db : List User) (now : Int) :
    Except AppError TokenOut :=
  match get_user_by_email username db with
  | none => .error (.http invalidCredentials)
  | some user =>
    match verify_password password user.password with
    | .error e => .error (.passlibFailure e)
    | .ok ok =>
      if ok then
        .ok ⟨create_access_token ⟨some user.email⟩
              (some (ACCESS_TOKEN_EXPIRE_MINUTES * 60)) now, "bearer"⟩
      else .error (.http invalidCredentials)

/-- The `groups` table row (src/main.py `class Group`). -/
structure Group where
  id : String
  filename : String
  user_id : String
  created_at : Int
deriving DecidableEq, Repr

/-- The `flashcards` table row (src/main.py `class Flashcard`). -/
structure Flashcard where
  id : String
  question : String
  answer : String
  user_id : String
  group_id : String
deriving DecidableEq, Repr

/-- The three persisted tables. -/
structure DBState where
  users : List User
  groups : List Group
  flashcards : List Flashcard
deriving DecidableEq, Repr

/-- Response model of `POST /upload` (`class FileUploadResponse`). -/
structure FileUploadResponse where
  group_id : String
  filename : String
  message : String
deriving DecidableEq, Repr

/-- The i-th placeholder card built in the `for i in range(3)` loop of
`upload_file`: question `f"Вопрос {i+1} к {file.filename}"`, answer
`f"Ответ {i+1}"`, owned by the current user, in the new group. -/
def placeholderCard (i : Nat) (cardId : String) (filename : String)
    (uid : String) (gid : String) : Flashcard :=
  ⟨cardId, "Вопрос " ++ toString (i + 1) ++ " к " ++ filename,
   "Ответ " ++ toString (i + 1), uid, gid⟩

/-- `upload_file(file, current_user, db)` from src/main.py: one new group
owned by `current_user` with the uploaded filename, three placeholder
cards added in the loop, one commit, and the response
`{group_id, filename, "File processed successfully"}`. The generated
uuids (`gid`, `c0`, `c1`, `c2`) and the clock are explicit parameters. -/
def upload_file (filename : String) (current_user : User) (db : DBState)
    (gid : String) (c0 : String) (c1 : String) (c2 : String) (now : Int) :
    FileUploadResponse × DBState :=
  let new_group : Group := ⟨gid, filename, current_user.id, now⟩
  let cards : List Flashcard :=
    [placeholderCard 0 c0 filename current_user.id gid,
     placeholderCard 1 c1 filename current_user.id gid,
     placeholderCard 2 c2 filename current_user.id gid]
  (⟨gid, filename, "File processed successfully"⟩,
   ⟨db.users, db.groups ++ [new_group], db.flashcards ++ cards⟩)

/-- Number of Credential Store records with the given email. -/
def countEmail (e : String) (db : List User) : Nat :=
  (db.filter (fun u => u.email == e)).length

/-! Concrete example values used to instantiate the theorems. -/

/-- A registered user whose password digest was produced by
`hash_password "pw"` with salt `"ab"`. -/
def alice : User := ⟨"u1", "a@x.com", hash_password "pw" "ab", some "Alice", 0⟩

/-- A string that is not a well-formed JWT. -/
def tokMalformed : Jwt := ⟨none, SECRET_KEY⟩

/-- A well-signed, unexpired token whose payload has no `sub` claim. -/
def tokNoSub : Jwt := ⟨some ⟨none, some 100⟩, SECRET_KEY⟩

/-- A well-signed, unexpired token for alice. -/
def tokAlice : Jwt := ⟨some ⟨some "a@x.com", some 100⟩, SECRET_KEY⟩

/-- A well-signed token for alice whose payload has no `exp` claim. -/
def tokAliceNoExp : Jwt := ⟨some ⟨some "a@x.com", none⟩, SECRET_KEY⟩

/-!  Theorems settling the claims. -/

/-- C1: for every bearer token, when token verification fails (malformed
token, bad signature, expired token — `joseDecode` errors — or a missing
subject claim), and likewise when verification succeeds but the subject
email is absent from the Credential Store, `get_current_user` fails with
exactly the same error — status 401, detail "Invalid token", a
`WWW-Authenticate: Bearer` header — and on every verification-failure path
the store is never queried (second component `false`). -/
theorem c1_identity_resolver_uniform_unauthorized
    (token : Jwt) (db : List User) (now : Int) :
    (∀ e, joseDecode token SECRET_KEY now = .error e →
      get_current_user token db now = (.error credentials_exception, false)) ∧
    (∀ p, joseDecode token SECRET_KEY now = .ok p → p.sub = none →
      get_current_user token db now = (.error credentials_exception, false)) ∧
    (∀ p em, joseDecode token SECRET_KEY now = .ok p → p.sub = some em →
      get_user_by_email em db = none →
      get_current_user token db now = (.error credentials_exception, true)) ∧
    credentials_exception.status_code = 401 ∧
    credentials_exception.detail = "Invalid token" ∧
    credentials_exception.headers = [("WWW-Authenticate", "Bearer")] := by
  refine ⟨?_, ?_, ?_, rfl, rfl, rfl⟩
  · intro e he
    simp [get_current_user, he]
  · intro p hp hsub
    simp [get_current_user, hp, hsub]
  · intro p em hp hsub hu
    simp [get_current_user, hp, hsub, hu]

/-- Witness for C1: the three failure paths at concrete inputs. -/
theorem c1_witness :
    get_current_user tokMalformed [alice] 0 = (.error credentials_exception, false) ∧
    get_current_user tokNoSub [alice] 0 = (.error credentials_exception, false) ∧
    get_current_user tokAlice [] 0 = (.error credentials_exception, true) :=
  ⟨(c1_identity_resolver_uniform_unauthorized tokMalformed [alice] 0).1 .malformed rfl,
   (c1_identity_resolver_uniform_unauthorized tokNoSub [alice] 0).2.1
     ⟨none, some 100⟩ rfl rfl,
   (c1_identity_resolver_uniform_unauthorized tokAlice [] 0).2.2.1
     ⟨some "a@x.com", some 100⟩ "a@x.com" rfl rfl rfl⟩

/-- C2 is false on the code: jose's default options do not require the
`exp` claim, so a token correctly signed with the secret key but carrying
no expiry is accepted by `joseDecode`, and `get_current_user` resolves it
to the stored user instead of rejecting with 401. -/
theorem c2_counterexample :
    tokAliceNoExp.signedWith = SECRET_KEY ∧
    tokAliceNoExp.payload = some ⟨some "a@x.com", none⟩ ∧
    joseDecode tokAliceNoExp SECRET_KEY 0 = .ok ⟨some "a@x.com", none⟩ ∧
    get_current_user tokAliceNoExp [alice] 0 = (.ok alice, true) :=
  ⟨rfl, rfl, rfl, rfl⟩

/-- C2 (amended): a token whose signature verifies against the secret key
but whose payload has no expiry claim is accepted by token verification
(jose does not require `exp` by default); `get_current_user` then proceeds
to the store lookup and resolves the subject when present. -/
theorem c2_amended_no_exp_accepted (em : String) (db : List User) (now : Int) :
    joseDecode ⟨some ⟨some em, none⟩, SECRET_KEY⟩ SECRET_KEY now = .ok ⟨some em, none⟩ ∧
    ∀ u, get_user_by_email em db = some u →
      get_current_user ⟨some ⟨some em, none⟩, SECRET_KEY⟩ db now = (.ok u, true) := by
  have hd : joseDecode ⟨some ⟨some em, none⟩, SECRET_KEY⟩ SECRET_KEY now
      = .ok ⟨some em, none⟩ := by
    simp [joseDecode]
  refine ⟨hd, fun u hu => ?_⟩
  simp [get_current_user, hd, hu]

/-- Witness for the amended C2 at a concrete token and store. -/
theorem c2_amended_witness :
    get_current_user ⟨some ⟨some "a@x.com", none⟩, SECRET_KEY⟩ [alice] 7 = (.ok alice, true) :=
  (c2_amended_no_exp_accepted "a@x.com" [alice] 7).2 alice rfl

/-- C10: a token validly signed with the secret key and not expired but
whose payload lacks a `sub` claim (or whose `sub` is null — both are
`sub = none` here, matching `payload.get("sub") is None`) is rejected by
`get_current_user` with the same 401 error used for invalid tokens, and
the Credential Store is never queried. -/
theorem c10_no_sub_rejected (p : Payload) (db : List User) (now : Int) (e : Int)
    (hexp : p.exp = some e) (hfresh : now ≤ e) (hsub : p.sub = none) :
    joseDecode ⟨some p, SECRET_KEY⟩ SECRET_KEY now = .ok p ∧
    get_current_user ⟨some p, SECRET_KEY⟩ db now = (.error credentials_exception, false) := by
  have hnl : ¬ e < now := not_lt.mpr hfresh
  have hd : joseDecode ⟨some p, SECRET_KEY⟩ SECRET_KEY now = .ok p := by
    simp [joseDecode, hexp, hnl]
  exact ⟨hd, by simp [get_current_user, hd, hsub]⟩

/-- Witness for C10 at a concrete unexpired no-subject token. -/
theorem c10_witness :
    get_current_user tokNoSub [alice] 3 = (.error credentials_exception, false) :=
  (c10_no_sub_rejected ⟨none, some 100⟩ [alice] 3 100 rfl (by decide) rfl).2

/-- C3: a login whose email is absent from the Credential Store and a
login whose password fails verification against the stored digest return
one and the same error value — the single `invalidCredentials` exception,
status 401, detail "Invalid credentials", no headers — so the two failure
runs are structurally identical. -/
theorem c3_login_uniform_unauthorized (username password : String)
    (db : List User) (now : Int) :
    (get_user_by_email username db = none →
      login_user username password db now = .error (.http invalidCredentials)) ∧
    (∀ u, get_user_by_email username db = some u →
      verify_password password u.password = .ok false →
      login_user username password db now = .error (.http invalidCredentials)) ∧
    invalidCredentials.status_code = 401 ∧
    invalidCredentials.detail = "Invalid credentials" ∧
    invalidCredentials.headers = [] := by
  refine ⟨?_, ?_, rfl, rfl, rfl⟩
  · intro h
    simp [login_user, h]
  · intro u hu hv
    simp [login_user, hu, hv]

/-- Witness for C3: a nonexistent email and a wrong password both yield
the identical error at concrete inputs. -/
theorem c3_witness :
    login_user "b@y.com" "pw" [alice] 0 = .error (.http invalidCredentials) ∧
    login_user "a@x.com" "wrongpw" [alice] 0 = .error (.http invalidCredentials) :=
  ⟨(c3_login_uniform_unauthorized "b@y.com" "pw" [alice] 0).1 rfl,
   (c3_login_uniform_unauthorized "a@x.com" "wrongpw" [alice] 0).2.1 alice rfl rfl⟩

/-- C4 is false on the code: `login_user` raises
`HTTPException(status_code=401, detail="Invalid credentials")` with no
headers argument, so the failed-login 401 carries no
`WWW-Authenticate: Bearer` challenge header. -/
theorem c4_counterexample :
    login_user "a@x.com" "wrongpw" [alice] 0 = .error (.http invalidCredentials) ∧
    invalidCredentials.status_code = 401 ∧
    invalidCredentials.headers = [] ∧
    ("WWW-Authenticate", "Bearer") ∉ invalidCredentials.headers := by
  exact ⟨rfl, rfl, rfl, by simp [invalidCredentials]⟩

/-- C4 (amended): every failed login returns the 401 response with detail
"Invalid credentials" and an empty header list — in particular without a
`WWW-Authenticate: Bearer` challenge header. -/
theorem c4_amended_failed_login_no_challenge
    (username password : String) (db : List User) (now : Int) (e : HTTPException)
    (h : login_user username password db now = .error (.http e)) :
    e = invalidCredentials ∧ e.status_code = 401 ∧
    e.detail = "Invalid credentials" ∧ e.headers = [] := by
  have he : e = invalidCredentials := by
    cases hu : get_user_by_email username db with
    | none =>
      simp [login_user, hu] at h
      exact h.symm
    | some u =>
      cases hv : verify_password password u.password with
      | error pe =>
        simp [login_user, hu, hv] at h
      | ok b =>
        cases b with
        | true => simp [login_user, hu, hv] at h
        | false =>
          simp [login_user, hu, hv] at h
          exact h.symm
  subst he
  exact ⟨rfl, rfl, rfl, rfl⟩

/-- Witness for the amended C4 at a concrete failed login. -/
theorem c4_amended_witness :
    invalidCredentials.status_code = 401 ∧ invalidCredentials.headers = [] :=
  ⟨(c4_amended_failed_login_no_challenge "b@y.com" "pw" [alice] 0
      invalidCredentials rfl).2.1,
   (c4_amended_failed_login_no_challenge "b@y.com" "pw" [alice] 0
      invalidCredentials rfl).2.2.2⟩

/-- C5: `create_access_token` with no `expires_delta` encodes expiry
`now + 15` minutes, and every token issued by a successful login carries
expiry `now + 60` minutes (`ACCESS_TOKEN_EXPIRE_MINUTES = 60` overrides
the default), with the user's email as subject. -/
theorem c5_token_expiry (data : TokenData) (now : Int)
    (username password : String) (db : List User) :
    (create_access_token data none now).payload
        = some ⟨data.sub, some (now + 15 * 60)⟩ ∧
    ACCESS_TOKEN_EXPIRE_MINUTES = 60 ∧
    (∀ t u, get_user_by_email username db = some u →
      login_user username password db now = .ok t →
      t.access_token = ⟨some ⟨some u.email, some (now + 60 * 60)⟩, SECRET_KEY⟩ ∧
      t.token_type = "bearer") := by
  refine ⟨rfl, rfl, ?_⟩
  intro t u hu hl
  cases hv : verify_password password u.password with
  | error pe =>
    simp [login_user, hu, hv] at hl
  | ok b =>
    cases b with
    | false => simp [login_user, hu, hv] at hl
    | true =>
      simp [login_user, hu, hv] at hl
      subst hl
      exact ⟨by simp [create_access_token, ACCESS_TOKEN_EXPIRE_MINUTES], rfl⟩

/-- Witness for C5: the default 15-minute expiry at a concrete call, and
the 60-minute expiry of the token from a concrete successful login. -/
theorem c5_witness :
    (create_access_token ⟨some "a@x.com"⟩ none 0).payload
        = some ⟨some "a@x.com", some (0 + 15 * 60)⟩ ∧
    (⟨⟨some ⟨some "a@x.com", some 3600⟩, SECRET_KEY⟩, "bearer"⟩ : TokenOut).access_token
        = ⟨some ⟨some "a@x.com", some (0 + 60 * 60)⟩, SECRET_KEY⟩ :=
  ⟨(c5_token_expiry ⟨some "a@x.com"⟩ 0 "a@x.com" "pw" [alice]).1,
   ((c5_token_expiry ⟨some "a@x.com"⟩ 0 "a@x.com" "pw" [alice]).2.2
     ⟨⟨some ⟨some "a@x.com", some 3600⟩, SECRET_KEY⟩, "bearer"⟩ alice rfl rfl).1⟩

/-- Splitting at the first `'$'` of `xs ++ '$' :: ys` recovers `(xs, ys)`
when `xs` itself contains no `'$'`. -/
theorem splitAtDollar_append (xs ys : List Char) (h : '$' ∉ xs) :
    splitAtDollar (xs ++ '$' :: ys) = some (xs, ys) := by
  induction xs with
  | nil => simp [splitAtDollar]
  | cons c rest ih =>
    have hc : ¬ c = '$' := fun e => h (e ▸ List.mem_cons_self c rest)
    have hrest : '$' ∉ rest := fun m => h (List.mem_cons_of_mem c m)
    simp only [List.cons_append, splitAtDollar, if_neg hc, List.append_eq, ih hrest]
    rfl

/-- passlib identifies a digest produced by `bcryptDigest` as bcrypt and
recovers the embedded salt (bcrypt salts contain no `'$'`). -/
theorem identifyBcrypt_bcryptDigest (password salt : String) (h : '$' ∉ salt.data) :
    identifyBcrypt (bcryptDigest password salt) = some (salt, password) := by
  have hdata : (bcryptDigest password salt).toList
      = '$' :: '2' :: 'b' :: '$' :: (salt.data ++ '$' :: password.data) := by
    simp [bcryptDigest, String.toList, String.data_append]
  unfold identifyBcrypt
  rw [hdata]
  show (if '$' = '$' ∧ '2' = '2' ∧ 'b' = 'b' ∧ '$' = '$' then
      (splitAtDollar (salt.data ++ '$' :: password.data)).map
        (fun pr => (String.mk pr.1, String.mk pr.2))
    else none) = some (salt, password)
  rw [if_pos ⟨rfl, rfl, rfl, rfl⟩, splitAtDollar_append salt.data password.data h]
  rfl

/-- Verifying a plaintext against a genuine digest re-hashes with the
embedded salt and compares: it returns `.ok` of the plaintext equality. -/
theorem verify_password_bcryptDigest (plain password salt : String)
    (h : '$' ∉ salt.data) :
    verify_password plain (bcryptDigest password salt) = .ok (plain == password) := by
  unfold verify_password
  rw [identifyBcrypt_bcryptDigest password salt h]
  show Except.ok (bcryptDigest plain salt == bcryptDigest password salt)
      = Except.ok (plain == password)
  congr 1
  by_cases hpq : plain = password
  · subst hpq
    simp
  · have hne : bcryptDigest plain salt ≠ bcryptDigest password salt := by
      intro e
      apply hpq
      have hd : (("$2b$".data ++ salt.data) ++ "$".data) ++ plain.data
          = (("$2b$".data ++ salt.data) ++ "$".data) ++ password.data := by
        simpa only [bcryptDigest, String.data_append] using congrArg String.data e
      have hdd := List.append_cancel_left hd
      calc plain = ⟨plain.data⟩ := rfl
        _ = ⟨password.data⟩ := by rw [hdd]
        _ = password := rfl
    rw [beq_eq_false_iff_ne.mpr hne, beq_eq_false_iff_ne.mpr hpq]

/-- C6 is false on the code: passlib's `CryptContext.verify` raises
`UnknownHashError` on a digest it cannot identify — it does not return
false — so `verify_password` applied to the unrecognisable digest string
"nothash" raises instead of returning a boolean. -/
theorem c6_counterexample :
    verify_password "pw" "nothash" = .error .unknownHash ∧
    ∀ b, verify_password "pw" "nothash" ≠ .ok b := by
  have h1 : verify_password "pw" "nothash" = .error .unknownHash := rfl
  refine ⟨h1, fun b hb => ?_⟩
  rw [h1] at hb
  exact Except.noConfusion hb

/-- C6 (amended): for every plaintext and every digest produced by
`hash_password`, `verify_password` returns a boolean (true exactly on the
original plaintext); but on a digest that passlib cannot identify it
raises `UnknownHashError`, so a malformed digest is distinguishable from
a wrong password at the call boundary. -/
theorem c6_amended_verify_raises_on_unknown (plain password salt hashed : String)
    (hsalt : '$' ∉ salt.data) (hbad : identifyBcrypt hashed = none) :
    verify_password plain (hash_password password salt) = .ok (plain == password) ∧
    verify_password plain hashed = .error .unknownHash := by
  refine ⟨verify_password_bcryptDigest plain password salt hsalt, ?_⟩
  simp [verify_password, hbad]

/-- Witness for the amended C6 at concrete strings. -/
theorem c6_amended_witness :
    verify_password "pw" (hash_password "pw" "ab") = .ok ("pw" == "pw") ∧
    verify_password "pw" "nothash2" = .error .unknownHash :=
  c6_amended_verify_raises_on_unknown "pw" "pw" "ab" "nothash2" (by decide) rfl

/-- C7: registering an email already present in the Credential Store
fails with the Conflict error (400, "User already exists") and leaves the
store unchanged; registering the same email twice starting from a store
without it has the first call succeed, the second return Conflict, and the
store end with exactly one record for that email. -/
theorem c7_register_email_unique (user : UserCreate) (db : List User)
    (id1 id2 salt1 salt2 : String) (n1 n2 : Int) :
    (∀ u0, get_user_by_email user.email db = some u0 →
      register_user user db id1 salt1 n1 = (.error userExists, db)) ∧
    (get_user_by_email user.email db = none →
      (register_user user db id1 salt1 n1).1 = .ok ⟨id1, user.email, user.full_name⟩ ∧
      (register_user user (register_user user db id1 salt1 n1).2 id2 salt2 n2).1
          = .error userExists ∧
      (register_user user (register_user user db id1 salt1 n1).2 id2 salt2 n2).2
          = (register_user user db id1 salt1 n1).2 ∧
      countEmail user.email
          (register_user user (register_user user db id1 salt1 n1).2 id2 salt2 n2).2
          = 1) := by
  constructor
  · intro u0 h
    simp [register_user, h]
  · intro h
    have h1 : register_user user db id1 salt1 n1
        = (.ok ⟨id1, user.email, user.full_name⟩,
            db ++ [⟨id1, user.email, hash_password user.password salt1,
              user.full_name, n1⟩]) := by
      simp [register_user, h]
    have hfind : get_user_by_email user.email
        (db ++ [⟨id1, user.email, hash_password user.password salt1, user.full_name, n1⟩])
        = some ⟨id1, user.email, hash_password user.password salt1, user.full_name, n1⟩ := by
      unfold get_user_by_email at h ⊢
      rw [List.find?_append, h]
      simp
    have h2 : register_user user
        (db ++ [⟨id1, user.email, hash_password user.password salt1, user.full_name, n1⟩])
        id2 salt2 n2
        = (.error userExists,
            db ++ [⟨id1, user.email, hash_password user.password salt1,
              user.full_name, n1⟩]) := by
      simp [register_user, hfind]
    have hcount : countEmail user.email
        (db ++ [⟨id1, user.email, hash_password user.password salt1, user.full_name, n1⟩])
        = 1 := by
      unfold countEmail
      rw [List.filter_append]
      have hnil : db.filter (fun u => u.email == user.email) = [] := by
        rw [List.filter_eq_nil_iff]
        intro a ha
        have := List.find?_eq_none.mp (by unfold get_user_by_email at h; exact h) a ha
        simpa using this
      rw [hnil]
      simp
    simp only [h1, h2]
    exact ⟨trivial, trivial, trivial, hcount⟩

/-- Witness for C7: a conflicting registration at a populated store, and
the register-twice scenario from the empty store. -/
theorem c7_witness :
    register_user ⟨"a@x.com", "pw", some "Alice"⟩ [alice] "u9" "cd" 5
        = (.error userExists, [alice]) ∧
    (register_user ⟨"b@y.com", "pw2", none⟩ [] "u2" "ef" 1).1
        = .ok ⟨"u2", "b@y.com", none⟩ ∧
    (register_user ⟨"b@y.com", "pw2", none⟩
        (register_user ⟨"b@y.com", "pw2", none⟩ [] "u2" "ef" 1).2 "u3" "gh" 2).1
        = .error userExists ∧
    countEmail "b@y.com"
        (register_user ⟨"b@y.com", "pw2", none⟩
          (register_user ⟨"b@y.com", "pw2", none⟩ [] "u2" "ef" 1).2 "u3" "gh" 2).2
        = 1 :=
  ⟨(c7_register_email_unique ⟨"a@x.com", "pw", some "Alice"⟩ [alice]
      "u9" "u9" "cd" "cd" 5 5).1 alice rfl,
   ((c7_register_email_unique ⟨"b@y.com", "pw2", none⟩ [] "u2" "u3" "ef" "gh" 1 2).2
      rfl).1,
   ((c7_register_email_unique ⟨"b@y.com", "pw2", none⟩ [] "u2" "u3" "ef" "gh" 1 2).2
      rfl).2.1,
   ((c7_register_email_unique ⟨"b@y.com", "pw2", none⟩ [] "u2" "u3" "ef" "gh" 1 2).2
      rfl).2.2.2⟩

/-- C8: the body of a successful registration response is exactly the
public-safe projection — id, email, full_name — and none of its fields
holds the password digest or the plaintext password (given that the
caller-supplied id, email and display name do not themselves coincide
with those secrets). -/
theorem c8_register_response_public_projection (user : UserCreate) (db : List User)
    (freshId salt : String) (now : Int) (resp : UserResponse) (db2 : List User)
    (h : register_user user db freshId salt now = (.ok resp, db2))
    (h1 : freshId ≠ hash_password user.password salt)
    (h2 : user.email ≠ hash_password user.password salt)
    (h3 : user.full_name ≠ some (hash_password user.password salt))
    (h4 : freshId ≠ user.password)
    (h5 : user.email ≠ user.password)
    (h6 : user.full_name ≠ some user.password) :
    resp = ⟨freshId, user.email, user.full_name⟩ ∧
    resp.render = [("id", some freshId), ("email", some user.email),
        ("full_name", user.full_name)] ∧
    (∀ kv ∈ resp.render,
      kv.2 ≠ some (hash_password user.password salt) ∧ kv.2 ≠ some user.password) := by
  have hr : resp = ⟨freshId, user.email, user.full_name⟩ := by
    cases hu : get_user_by_email user.email db with
    | some u0 =>
      simp [register_user, hu] at h
    | none =>
      simp [register_user, hu] at h
      exact h.1.symm
  subst hr
  refine ⟨rfl, rfl, ?_⟩
  intro kv hkv
  simp only [UserResponse.render, List.mem_cons, List.not_mem_nil, or_false] at hkv
  rcases hkv with hk | hk | hk <;> subst hk
  · exact ⟨by simpa using h1, by simpa using h4⟩
  · exact ⟨by simpa using h2, by simpa using h5⟩
  · exact ⟨h3, h6⟩

/-- Witness for C8 at a concrete registration on the empty store. -/
theorem c8_witness :
    (⟨"u2", "b@y.com", some "Bob"⟩ : UserResponse).render
        = [("id", some "u2"), ("email", some "b@y.com"), ("full_name", some "Bob")] :=
  (c8_register_response_public_projection ⟨"b@y.com", "pw2", some "Bob"⟩ []
      "u2" "ef" 1 ⟨"u2", "b@y.com", some "Bob"⟩
      [⟨"u2", "b@y.com", hash_password "pw2" "ef", some "Bob", 1⟩]
      rfl (by decide) (by decide) (by decide) (by decide) (by decide) (by decide)).2.1

/-- C9: an authenticated upload creates exactly one new group owned by the
resolved user and exactly three placeholder flashcards, each with the
resolved user's id and the new group's id; it returns the new group id and
the uploaded filename, leaves the users table unchanged, and every other
user's groups and flashcards are untouched. -/
theorem c9_upload_one_group_three_cards (filename : String) (cu : User) (db : DBState)
    (gid c0 c1 c2 : String) (now : Int) :
    (upload_file filename cu db gid c0 c1 c2 now).1
        = ⟨gid, filename, "File processed successfully"⟩ ∧
    (upload_file filename cu db gid c0 c1 c2 now).2.users = db.users ∧
    (upload_file filename cu db gid c0 c1 c2 now).2.groups
        = db.groups ++ [⟨gid, filename, cu.id, now⟩] ∧
    (upload_file filename cu db gid c0 c1 c2 now).2.flashcards
        = db.flashcards ++ [placeholderCard 0 c0 filename cu.id gid,
            placeholderCard 1 c1 filename cu.id gid,
            placeholderCard 2 c2 filename cu.id gid] ∧
    (∀ i cid, (placeholderCard i cid filename cu.id gid).user_id = cu.id ∧
      (placeholderCard i cid filename cu.id gid).group_id = gid) ∧
    (∀ uid, uid ≠ cu.id →
      (upload_file filename cu db gid c0 c1 c2 now).2.groups.filter
          (fun g => g.user_id == uid)
        = db.groups.filter (fun g => g.user_id == uid) ∧
      (upload_file filename cu db gid c0 c1 c2 now).2.flashcards.filter
          (fun c => c.user_id == uid)
        = db.flashcards.filter (fun c => c.user_id == uid)) := by
  refine ⟨rfl, rfl, rfl, rfl, fun i cid => ⟨rfl, rfl⟩, ?_⟩
  intro uid huid
  have hb : (cu.id == uid) = false := beq_eq_false_iff_ne.mpr (Ne.symm huid)
  constructor
  · simp [upload_file, List.filter_append, hb]
  · simp [upload_file, placeholderCard, List.filter_append, hb]

/-- Witness for C9: a concrete upload, with the no-other-user-touched part
instantiated at a user id different from the uploader's. -/
theorem c9_witness :
    (upload_file "doc.pdf" alice ⟨[alice], [], []⟩ "g1" "f1" "f2" "f3" 9).1
        = ⟨"g1", "doc.pdf", "File processed successfully"⟩ ∧
    (upload_file "doc.pdf" alice ⟨[alice], [], []⟩ "g1" "f1" "f2" "f3" 9).2.groups.filter
        (fun g => g.user_id == "u2")
      = ([] : List Group).filter (fun g => g.user_id == "u2") :=
  ⟨(c9_upload_one_group_three_cards "doc.pdf" alice ⟨[alice], [], []⟩
      "g1" "f1" "f2" "f3" 9).1,
   ((c9_upload_one_group_three_cards "doc.pdf" alice ⟨[alice], [], []⟩
      "g1" "f1" "f2" "f3" 9).2.2.2.2.2 "u2" (by decide)).1⟩

end SmartCards
